import Mathlib

/-!
Verification development for the `build-hook` service (Rust sources under `src/`).

The Rust code is shallowly embedded: each external-process interaction
(`kubectl`, `git`, `docker buildx`) is abstracted by an environment record of
oracles giving the outcome of each invocation, and each embedded function
additionally returns a trace of the externally visible actions it performed
(which resources it tried to restart, which image builds it spawned, whether it
attempted workspace cleanup, ...), so that claims about "how many times X was
invoked" become statements about those traces.
-/

/-- Exit status of a finished external process (`std::process::ExitStatus`):
whether it succeeded, and its exit code when one exists. -/
structure ProcStatus where
  success : Bool
  code : Option Int
deriving Repr, DecidableEq

/-- Captured output of a finished external process (`std::process::Output`). -/
structure ProcOutput where
  status : ProcStatus
  stdoutStr : String
  stderrStr : String
deriving Repr, DecidableEq

/-- Returns `true` exactly on `Except.ok`. -/
def exceptOk {ε α : Type} : Except ε α → Bool
  | Except.ok _ => true
  | Except.error _ => false

/-! ## kube.rs -/

/-- Environment oracle for `src/kube.rs`: the raw result of
`Command::new("kubectl").args(["rollout", "restart", "-n", ns, resource]).output()`
for each resource. `Except.error` is the io-level failure of `Command::output`
(the process could not be run at all); `Except.ok` carries the process output. -/
structure KubeEnv where
  run : String → Except String ProcOutput

/-- Embeds `run_command_output` from `src/kube.rs`: propagates an io failure as
`Err("Failed to run {description}: {err}")`, otherwise returns the output
(stderr logging has no semantic effect and is dropped). -/
def run_command_output (env : KubeEnv) (descr : String) (resource : String) :
    Except String ProcOutput :=
  match env.run resource with
  | Except.error err => Except.error ("Failed to run " ++ descr ++ ": " ++ err)
  | Except.ok out => Except.ok out

/-- Embeds `rollout_restart` from `src/kube.rs`, instrumented with a trace:
the first component lists, in order, the resources for which a
`kubectl rollout restart` invocation was made; the second is the function's
`Result`.  The Rust body is a `for` loop that propagates a `run_command_output`
failure with `?` and `return`s an `Err` naming the resource as soon as one
restart's exit status is unsuccessful. -/
def rollout_restart (ns : String) (resources : List String) (env : KubeEnv) :
    List String × Except String Unit :=
  match resources with
  | [] => ([], Except.ok ())
  | r :: rest =>
    match run_command_output env "kubectl rollout restart" r with
    | Except.error e => ([r], Except.error e)
    | Except.ok out =>
      if out.status.success then
        let t := rollout_restart ns rest env
        (r :: t.1, t.2)
      else
        ([r], Except.error ("Failed to restart `" ++ r ++ "` in namespace `" ++ ns
          ++ "`: " ++ out.stderrStr))

/-- A resource's restart succeeds in environment `env`: the kubectl invocation
ran and exited successfully. -/
def restartSucceeds (env : KubeEnv) (r : String) : Bool :=
  match env.run r with
  | Except.ok out => out.status.success
  | Except.error _ => false

/-- Concrete two-resource environment in which the restart of
`deployment/web` fails (exit code 1) and the restart of `deployment/worker`
would succeed. -/
def kubeEnvFirstFails : KubeEnv :=
  ⟨fun r =>
    if r = "deployment/web" then Except.ok ⟨⟨false, some 1⟩, "", "boom"⟩
    else Except.ok ⟨⟨true, some 0⟩, "", ""⟩⟩

/-- C1 counterexample: with two resources where the first restart fails and the
second would succeed, `rollout_restart` stops immediately: the second resource
is never attempted (contradicting "a failure on one resource does not prevent
the restart attempts on the remaining resources"), and the error names only the
first resource. -/
theorem rollout_restart_claim_counterexample :
    (rollout_restart "prod" ["deployment/web", "deployment/worker"]
        kubeEnvFirstFails).1 = ["deployment/web"] ∧
    "deployment/worker" ∉
      (rollout_restart "prod" ["deployment/web", "deployment/worker"]
        kubeEnvFirstFails).1 ∧
    (rollout_restart "prod" ["deployment/web", "deployment/worker"]
        kubeEnvFirstFails).2 =
      Except.error "Failed to restart `deployment/web` in namespace `prod`: boom" := by
  refine ⟨rfl, ?_, rfl⟩
  decide

/-- Unfolding step of `rollout_restart` at a resource whose restart succeeds:
the loop continues into the remaining resources. -/
theorem rollout_restart_cons_succ (ns a : String) (l : List String) (env : KubeEnv)
    (ha : restartSucceeds env a = true) :
    rollout_restart ns (a :: l) env =
      (a :: (rollout_restart ns l env).1, (rollout_restart ns l env).2) := by
  unfold restartSucceeds at ha
  simp only [rollout_restart, run_command_output]
  cases hrun : env.run a with
  | error e => rw [hrun] at ha; simp at ha
  | ok out =>
    rw [hrun] at ha
    simp only [] at ha
    simp [ha]

/-- Unfolding step of `rollout_restart` at a resource whose restart fails:
the loop returns an error at once, with only that resource attempted. -/
theorem rollout_restart_cons_fail (ns a : String) (l : List String) (env : KubeEnv)
    (ha : restartSucceeds env a = false) :
    (rollout_restart ns (a :: l) env).1 = [a] ∧
    exceptOk (rollout_restart ns (a :: l) env).2 = false := by
  unfold restartSucceeds at ha
  simp only [rollout_restart, run_command_output]
  cases hrun : env.run a with
  | error e => simp [hrun, exceptOk]
  | ok out =>
    rw [hrun] at ha
    simp only [] at ha
    simp [hrun, ha, exceptOk]

/-- C1 amended: `rollout_restart` attempts restarts in declaration order and
stops at the first failure.  If every resource's restart succeeds it attempts
all of them and returns `Ok`; if some resource fails while all resources before
it succeed, exactly the resources up to and including the first failing one are
attempted and the stage returns an error (naming that resource), with the
resources after it never attempted. -/
theorem rollout_restart_first_failure_only (ns : String) (env : KubeEnv) :
    (∀ l : List String, (∀ r ∈ l, restartSucceeds env r = true) →
      rollout_restart ns l env = (l, Except.ok ())) ∧
    (∀ pre r rest, (∀ x ∈ pre, restartSucceeds env x = true) →
      restartSucceeds env r = false →
      (rollout_restart ns (pre ++ r :: rest) env).1 = pre ++ [r] ∧
      exceptOk (rollout_restart ns (pre ++ r :: rest) env).2 = false) := by
  constructor
  · intro l hl
    induction l with
    | nil => rfl
    | cons a l ih =>
      have hrest := ih (fun x hx => hl x (List.mem_cons_of_mem a hx))
      rw [rollout_restart_cons_succ ns a l env (hl a (List.mem_cons_self a l)), hrest]
  · intro pre r rest hpre hr
    induction pre with
    | nil => exact rollout_restart_cons_fail ns r rest env hr
    | cons a pre ih =>
      have hrest := ih (fun x hx => hpre x (List.mem_cons_of_mem a hx))
      have hstep := rollout_restart_cons_succ ns a (pre ++ r :: rest) env
        (hpre a (List.mem_cons_self a pre))
      rw [List.cons_append, hstep]
      exact ⟨by simp [hrest.1], hrest.2⟩

/-- C1 witness: the amended theorem applied at the concrete two-resource
environment above, discharging its hypotheses there. -/
theorem rollout_restart_first_failure_only_witness :
    (rollout_restart "prod" ([] ++ "deployment/web" :: ["deployment/worker"])
        kubeEnvFirstFails).1 = [] ++ ["deployment/web"] ∧
    exceptOk (rollout_restart "prod" ([] ++ "deployment/web" :: ["deployment/worker"])
        kubeEnvFirstFails).2 = false := by
  have h := (rollout_restart_first_failure_only "prod" kubeEnvFirstFails).2
    [] "deployment/web" ["deployment/worker"] (by simp) (by decide)
  exact h

/-! ## project/repo.rs -/

/-- Externally visible actions of `clone_repo` (src/project/repo.rs) on the
workspace: a `git clone`, a removal of the workspace path, a checkout of a
tree, a move of HEAD, and a fetch from the remote. -/
inductive RepoEffect
  | cloneCall
  | removeWorkspace
  | checkoutTree
  | setHead
  | fetchCall
deriving Repr, DecidableEq

/-- Outcome of `clone_repo`: the Rust function returns `()`, so the only
possible outcomes are normal return and a panic (from `unwrap`, `expect` or an
explicit `panic!`). There is no error constructor because the function has no
error return type. -/
inductive FetchOutcome
  | ok
  | panicked (msg : String)
deriving Repr, DecidableEq

/-- Environment oracle for `src/project/repo.rs`: outcomes of the libgit2
operations performed on the workspace path and the configured repository. -/
structure GitEnv where
  /-- `Repository::open(dest)` succeeds: a usable repository already exists at
  the workspace path (left over from a previous run). -/
  openOk : Bool
  /-- `RepoBuilder::clone(src, dest)` succeeds. -/
  cloneOk : Bool
  /-- The reference `refs/remotes/origin/{branch}` exists. -/
  hasRemoteBranchRef : Bool
  /-- The reference `refs/heads/{branch}` exists. -/
  hasLocalBranchRef : Bool
  /-- Peeling the branch reference to a commit succeeds. -/
  peelOk : Bool
  /-- `checkout_tree` succeeds. -/
  checkoutOk : Bool
  /-- `set_head` succeeds. -/
  setHeadOk : Bool
  /-- The repository has a remote named `origin`. -/
  hasOrigin : Bool
  /-- The repository has at least one remote. -/
  hasAnyRemote : Bool
  /-- The network fetch from the remote succeeds. -/
  fetchOk : Bool

/-- Embeds `checkout_branch` from `src/project/repo.rs`: looks up
`refs/remotes/origin/{branch}`, falling back to `refs/heads/{branch}`, and
panics (`panic!`) when neither exists; then peels to a commit
(`expect`), checks out the tree (`expect`) and sets HEAD (`expect`).
Returns the effects performed and the outcome. -/
def checkout_branch (env : GitEnv) (branch dest : String) :
    List RepoEffect × FetchOutcome :=
  if env.hasRemoteBranchRef || env.hasLocalBranchRef then
    if env.peelOk then
      if env.checkoutOk then
        if env.setHeadOk then
          ([RepoEffect.checkoutTree, RepoEffect.setHead], FetchOutcome.ok)
        else
          ([RepoEffect.checkoutTree], FetchOutcome.panicked "Failed to set HEAD to branch")
      else ([], FetchOutcome.panicked "Failed to checkout tree")
    else ([], FetchOutcome.panicked "Could not peel branch to commit")
  else
    ([], FetchOutcome.panicked ("Branch `" ++ branch
      ++ "` not found in cloned repository at `" ++ dest ++ "`"))

/-- Embeds `fetch_latest` from `src/project/repo.rs`: finds the `origin`
remote, else falls back to the first remote, else panics (`panic!`); a failure
of the fetch itself is logged and swallowed (`.ok()`), so the fetch call always
ends in a normal return once a remote exists. -/
def fetch_latest (env : GitEnv) (dest : String) : List RepoEffect × FetchOutcome :=
  if env.hasOrigin || env.hasAnyRemote then ([RepoEffect.fetchCall], FetchOutcome.ok)
  else ([], FetchOutcome.panicked ("No remotes found in repository at `" ++ dest ++ "`"))

/-- Embeds `clone_repo` from `src/project/repo.rs`: tries to
`Repository::open(dest)` and reuses the existing repository when that succeeds;
only when opening fails does it clone (`RepoBuilder::clone(...).unwrap()`,
panicking on a clone error); then `checkout_branch` and `fetch_latest`.
No step ever removes the workspace path. Returns the effects performed, in
order, together with the outcome. -/
def clone_repo (env : GitEnv) (src dest branch : String) :
    List RepoEffect × FetchOutcome :=
  let opened : List RepoEffect × FetchOutcome :=
    if env.openOk then ([], FetchOutcome.ok)
    else if env.cloneOk then ([RepoEffect.cloneCall], FetchOutcome.ok)
    else ([RepoEffect.cloneCall],
      FetchOutcome.panicked "called `Result::unwrap()` on an `Err` value")
  match opened.2 with
  | FetchOutcome.panicked m => (opened.1, FetchOutcome.panicked m)
  | FetchOutcome.ok =>
    let c := checkout_branch env branch dest
    match c.2 with
    | FetchOutcome.panicked m => (opened.1 ++ c.1, FetchOutcome.panicked m)
    | FetchOutcome.ok =>
      let f := fetch_latest env dest
      (opened.1 ++ c.1 ++ f.1, f.2)

/-- Environment in which a usable repository already sits at the workspace path
and every git operation succeeds. -/
def gitEnvReuse : GitEnv :=
  ⟨true, true, true, true, true, true, true, true, true, true⟩

/-- C2 counterexample: when the workspace path already holds a repository from
a prior run, `clone_repo` does not delete it and does not perform a fresh
checkout into it: it opens and reuses the existing repository (no clone call is
made, no removal is made), contradicting "the workspace path is deleted
entirely ... and then a fresh ... checkout ... is performed" and "never reuses
... any state left by a previous run". -/
theorem clone_repo_reuses_existing_counterexample :
    (clone_repo gitEnvReuse "https://example.com/r.git" "/tmp/api" "main").1 =
      [RepoEffect.checkoutTree, RepoEffect.setHead, RepoEffect.fetchCall] ∧
    RepoEffect.removeWorkspace ∉
      (clone_repo gitEnvReuse "https://example.com/r.git" "/tmp/api" "main").1 ∧
    RepoEffect.cloneCall ∉
      (clone_repo gitEnvReuse "https://example.com/r.git" "/tmp/api" "main").1 ∧
    (clone_repo gitEnvReuse "https://example.com/r.git" "/tmp/api" "main").2 =
      FetchOutcome.ok := by
  refine ⟨rfl, ?_, ?_, rfl⟩ <;> decide

/-- C2 amended: `clone_repo` never removes the workspace path (no removal
effect ever appears in its trace, for any environment); when a repository at
the workspace path can be opened, it is reused as-is (no clone is performed)
and only checkout/fetch effects happen; a clone (a full clone, with no
shallow or single-branch option set) is attempted only when opening fails. -/
theorem clone_repo_never_deletes_and_reuses (env : GitEnv) (src dest branch : String) :
    (RepoEffect.removeWorkspace ∉ (clone_repo env src dest branch).1) ∧
    (env.openOk = true → RepoEffect.cloneCall ∉ (clone_repo env src dest branch).1) ∧
    (env.openOk = false → env.cloneOk = true →
      RepoEffect.cloneCall ∈ (clone_repo env src dest branch).1) := by
  unfold clone_repo checkout_branch fetch_latest
  cases env with
  | mk o c rr lr p co sh ho ha f =>
    cases o <;> cases c <;> cases rr <;> cases lr <;> cases p <;> cases co <;>
      cases sh <;> cases ho <;> cases ha <;> cases f <;> simp

/-- C2 witness: the amended theorem applied at the concrete reuse environment,
discharging its hypotheses there. -/
theorem clone_repo_never_deletes_and_reuses_witness :
    RepoEffect.removeWorkspace ∉
      (clone_repo gitEnvReuse "https://example.com/r.git" "/cache/api" "main").1 ∧
    RepoEffect.cloneCall ∉
      (clone_repo gitEnvReuse "https://example.com/r.git" "/cache/api" "main").1 :=
  ⟨(clone_repo_never_deletes_and_reuses gitEnvReuse
      "https://example.com/r.git" "/cache/api" "main").1,
   (clone_repo_never_deletes_and_reuses gitEnvReuse
      "https://example.com/r.git" "/cache/api" "main").2.1 rfl⟩

/-- Environment in which no repository exists at the workspace path, the clone
succeeds, but the configured branch exists neither as a remote-tracking nor as
a local reference in the cloned repository. -/
def gitEnvUnknownBranch : GitEnv :=
  ⟨false, true, false, false, true, true, true, true, true, true⟩

/-- C8 counterexample: with an unknown branch, `clone_repo` panics (with the
`Branch ... not found` message) instead of surfacing the condition as an
`Error` value, contradicting "surfaces the condition as an Error value ... and
never panics". -/
theorem clone_repo_panics_on_unknown_branch :
    (clone_repo gitEnvUnknownBranch "https://example.com/r.git" "/tmp/api" "missing").2 =
      FetchOutcome.panicked
        "Branch `missing` not found in cloned repository at `/tmp/api`" := by
  decide

/-- C8 amended: `clone_repo` has no error return value at all (its outcome is
either a normal return or a panic); an unreachable/unauthorized repository
(failed clone with no pre-existing repository) and an unknown branch both end
in a panic rather than an `Error`; and workspace cleanup is not a failure
condition because the function never attempts cleanup. -/
theorem clone_repo_failure_modes_panic (env : GitEnv) (src dest branch : String) :
    ((clone_repo env src dest branch).2 = FetchOutcome.ok ∨
      ∃ m, (clone_repo env src dest branch).2 = FetchOutcome.panicked m) ∧
    (env.openOk = false → env.cloneOk = false →
      (clone_repo env src dest branch).2 =
        FetchOutcome.panicked "called `Result::unwrap()` on an `Err` value") ∧
    (env.openOk = false → env.cloneOk = true →
      env.hasRemoteBranchRef = false → env.hasLocalBranchRef = false →
      (clone_repo env src dest branch).2 =
        FetchOutcome.panicked ("Branch `" ++ branch
          ++ "` not found in cloned repository at `" ++ dest ++ "`")) ∧
    (RepoEffect.removeWorkspace ∉ (clone_repo env src dest branch).1) := by
  refine ⟨?_, ?_, ?_, (clone_repo_never_deletes_and_reuses env src dest branch).1⟩
  · unfold clone_repo checkout_branch fetch_latest
    cases env with
    | mk o c rr lr p co sh ho ha f =>
      cases o <;> cases c <;> cases rr <;> cases lr <;> cases p <;> cases co <;>
        cases sh <;> cases ho <;> cases ha <;> cases f <;> simp
  · intro h1 h2
    unfold clone_repo
    rw [h1, h2]
    rfl
  · intro h1 h2 h3 h4
    unfold clone_repo checkout_branch
    rw [h1, h2, h3, h4]
    rfl

/-- C8 witness: the amended theorem applied at the unknown-branch environment,
discharging its hypotheses there. -/
theorem clone_repo_failure_modes_panic_witness :
    (clone_repo gitEnvUnknownBranch "https://example.com/r.git" "/tmp/api" "dev").2 =
      FetchOutcome.panicked "Branch `dev` not found in cloned repository at `/tmp/api`" :=
  (clone_repo_failure_modes_panic gitEnvUnknownBranch
    "https://example.com/r.git" "/tmp/api" "dev").2.2.1 rfl rfl rfl rfl

/-! ## project/image.rs -/

/-- Embeds `BuildImage` from `src/project/image.rs`. -/
structure BuildImage where
  tag : String
  dockerfile_path : String
  context_dir : String
deriving Repr, DecidableEq

/-- Oracle for the three process-level steps of one image build: the result of
`Command::spawn` (error = io failure), of `Child::try_wait` (an `Option` of an
early exit status), and of `Child::wait_with_output`. -/
structure BuildStepEnv where
  spawnRes : Except String Unit
  tryWaitRes : Except String (Option ProcStatus)
  waitRes : Except String ProcOutput

/-- Environment oracle for `src/project/image.rs`: whether a path is a regular
file (`Path::is_file`), the process-step outcomes of the i-th `docker buildx`
invocation (0-indexed, in invocation order), and whether the final
`std::fs::remove_dir_all(repo_dest)` succeeds. -/
structure ImageEnv where
  isFile : String → Bool
  step : Nat → BuildStepEnv
  removeDirOk : Bool

/-- Rust `{:?}` rendering of the `Option<i32>` exit code used in the error
messages of `src/project/image.rs`. -/
def formatCode : Option Int → String
  | some c => "Some(" ++ toString c ++ ")"
  | none => "None"

/-- Embeds `spawn_build` from `src/project/image.rs` for the i-th docker
invocation: an io-level spawn failure becomes
`Err("Failed to execute docker buildx: {e}")`. -/
def spawn_build (env : ImageEnv) (i : Nat) : Except String Unit :=
  match (env.step i).spawnRes with
  | Except.error e => Except.error ("Failed to execute docker buildx: " ++ e)
  | Except.ok _ => Except.ok ()

/-- Embeds `verify_build_started` from `src/project/image.rs` for the i-th
docker invocation: an immediate unsuccessful exit or a `try_wait` failure is an
error; a still-running child or an immediate successful exit is fine. -/
def verify_build_started (env : ImageEnv) (i : Nat) : Except String Unit :=
  match (env.step i).tryWaitRes with
  | Except.ok (some status) =>
    if status.success then Except.ok ()
    else Except.error ("Build process exited immediately with code: "
      ++ formatCode status.code)
  | Except.ok none => Except.ok ()
  | Except.error e => Except.error ("Failed to check build process status: " ++ e)

/-- Embeds `handle_build_completion` from `src/project/image.rs` for the i-th
docker invocation: waiting can fail, and an unsuccessful exit status is an
error naming the image tag (logging of stdout/stderr has no semantic effect). -/
def handle_build_completion (env : ImageEnv) (i : Nat) (tag : String) :
    Except String Unit :=
  match (env.step i).waitRes with
  | Except.error e => Except.error ("Failed to wait for build process: " ++ e)
  | Except.ok out =>
    if out.status.success then Except.ok ()
    else Except.error ("Build failed for " ++ tag ++ " with exit code: "
      ++ formatCode out.status.code)

/-- The Dockerfile-existence loop at the top of `build_images`: returns the
first image whose `dockerfile_path` is not a regular file, if any. -/
def check_dockerfiles (env : ImageEnv) : List BuildImage → Option BuildImage
  | [] => none
  | b :: rest =>
    if env.isFile b.dockerfile_path then check_dockerfiles env rest else some b

/-- The build of the first image in `build_images` (invocation index 0): spawn,
verify (its error propagated unwrapped), then completion. -/
def build_first (env : ImageEnv) (b : BuildImage) : Except String Unit :=
  match spawn_build env 0 with
  | Except.error e => Except.error e
  | Except.ok _ =>
    match verify_build_started env 0 with
    | Except.error e => Except.error e
    | Except.ok _ => handle_build_completion env 0 b.tag

/-- The `for build in image_builds` loop over the remaining images in
`build_images`, starting at invocation index `i`: per image, spawn, verify
(its error wrapped in a `Build process for {tag} exited immediately` message),
then completion, each propagated with `?`.  The first component lists the tags
of the images for which a docker invocation was made, in order. -/
def build_rest (env : ImageEnv) : Nat → List BuildImage → List String × Except String Unit
  | _, [] => ([], Except.ok ())
  | i, b :: rest =>
    match spawn_build env i with
    | Except.error e => ([b.tag], Except.error e)
    | Except.ok _ =>
      match verify_build_started env i with
      | Except.error e =>
        ([b.tag], Except.error ("Build process for " ++ b.tag
          ++ " exited immediately: " ++ e))
      | Except.ok _ =>
        match handle_build_completion env i b.tag with
        | Except.error e => ([b.tag], Except.error e)
        | Except.ok _ =>
          let t := build_rest env (i + 1) rest
          (b.tag :: t.1, t.2)

/-- Result of `build_images`: a normal `Ok`, an `Err` with its message, or a
panic (Rust `Vec::drain` aborts the thread when the drained range is out of
bounds). -/
inductive BResult
  | ok
  | err (msg : String)
  | panicked (msg : String)
deriving Repr, DecidableEq

/-- Observable trace of one `build_images` call: the tags for which a docker
build was spawned (in order), whether the `remove_dir_all` workspace cleanup
was attempted, and the function's result. -/
structure BuildImagesTrace where
  spawned : List String
  cleanupAttempted : Bool
  result : BResult
deriving Repr, DecidableEq

/-- Embeds `build_images` from `src/project/image.rs`:
1. check every image's Dockerfile path (`is_file`) before any build, returning
   `Err("Dockerfile for {tag} not found at {path}")` on the first missing one;
2. `image_builds.drain(0..1).next()`: on an empty vector `drain(0..1)` panics
   (range end 1 out of bounds), so the `ok_or_else` fallback error is never
   produced; otherwise the first image is removed and built;
3. the remaining images are built one at a time in order, stopping at the
   first failure (`?`);
4. only after the last image succeeded, `remove_dir_all(repo_dest)` is
   attempted; its failure is logged and the function still returns `Ok`. -/
def build_images (image_builds : List BuildImage) (repo_dest : String)
    (env : ImageEnv) : BuildImagesTrace :=
  match check_dockerfiles env image_builds with
  | some b =>
    ⟨[], false, BResult.err ("Dockerfile for " ++ b.tag ++ " not found at "
      ++ b.dockerfile_path)⟩
  | none =>
    match image_builds with
    | [] => ⟨[], false, BResult.panicked "end drain index (is 1) should be <= len (is 0)"⟩
    | first :: rest =>
      match build_first env first with
      | Except.error e => ⟨[first.tag], false, BResult.err e⟩
      | Except.ok _ =>
        let t := build_rest env 1 rest
        match t.2 with
        | Except.error e => ⟨first.tag :: t.1, false, BResult.err e⟩
        | Except.ok _ => ⟨first.tag :: t.1, true, BResult.ok⟩

/-- The spawn of invocation `i` succeeds (the docker process started). -/
def spawn_ok (env : ImageEnv) (i : Nat) : Bool :=
  exceptOk (spawn_build env i)

/-- All three process steps of invocation `i` succeed: the build of the image
at that invocation index fully succeeds. -/
def step_ok (env : ImageEnv) (i : Nat) : Bool :=
  exceptOk (spawn_build env i) && exceptOk (verify_build_started env i) &&
    (match (env.step i).waitRes with
     | Except.ok out => out.status.success
     | Except.error _ => false)

/-- An `Except _ Unit` on which `exceptOk` holds is `Except.ok ()`. -/
theorem exceptOk_unit {ε : Type} {x : Except ε Unit} (h : exceptOk x = true) :
    x = Except.ok () := by
  cases x with
  | ok a => cases a; rfl
  | error e => simp [exceptOk] at h

/-- A fully successful invocation decomposes into its three successful steps. -/
theorem step_ok_parts (env : ImageEnv) (i : Nat) (h : step_ok env i = true) :
    spawn_build env i = Except.ok () ∧ verify_build_started env i = Except.ok () ∧
    ∀ t, handle_build_completion env i t = Except.ok () := by
  unfold step_ok at h
  simp only [Bool.and_eq_true] at h
  obtain ⟨⟨h1, h2⟩, h3⟩ := h
  refine ⟨exceptOk_unit h1, exceptOk_unit h2, ?_⟩
  intro t
  unfold handle_build_completion
  cases hw : (env.step i).waitRes with
  | error e => rw [hw] at h3; simp at h3
  | ok out =>
    rw [hw] at h3
    simp only [] at h3
    simp [h3]

/-- An invocation whose docker process starts but whose build does not fully
succeed fails at the verify step or at the completion step. -/
theorem step_fail_parts (env : ImageEnv) (i : Nat)
    (hs : spawn_ok env i = true) (h : step_ok env i = false) :
    spawn_build env i = Except.ok () ∧
    ((∃ e, verify_build_started env i = Except.error e) ∨
      (verify_build_started env i = Except.ok () ∧
        ∀ t, ∃ e, handle_build_completion env i t = Except.error e)) := by
  unfold spawn_ok at hs
  unfold step_ok at h
  refine ⟨exceptOk_unit hs, ?_⟩
  rw [hs] at h
  simp only [exceptOk, Bool.true_and] at h
  cases hveq : verify_build_started env i with
  | error e => exact Or.inl ⟨e, rfl⟩
  | ok a =>
    right
    rw [hveq] at h
    simp only [exceptOk, Bool.true_and] at h
    cases a
    refine ⟨rfl, ?_⟩
    intro t
    unfold handle_build_completion
    cases hw : (env.step i).waitRes with
    | error e => exact ⟨_, rfl⟩
    | ok out =>
      rw [hw] at h
      simp only [] at h
      simp [h]

/-- When every invocation in its range succeeds, the remaining-images loop
builds every image in order and returns `Ok`. -/
theorem build_rest_all_ok (env : ImageEnv) :
    ∀ (l : List BuildImage) (start : Nat),
      (∀ i, i < l.length → step_ok env (start + i) = true) →
      build_rest env start l = (l.map BuildImage.tag, Except.ok ()) := by
  intro l
  induction l with
  | nil => intro start _; rfl
  | cons b rest ih =>
    intro start h
    obtain ⟨h1, h2, h3⟩ := step_ok_parts env start (by simpa using h 0 (by simp))
    have hrec := ih (start + 1) (fun i hi => by
      have hh := h (i + 1) (by simpa using Nat.succ_lt_succ hi)
      have : start + (i + 1) = start + 1 + i := by omega
      rwa [this] at hh)
    simp only [build_rest, h1, h2, h3 b.tag, hrec]
    rfl

/-- When every invocation before relative position `pre.length` succeeds and
the invocation at that position starts but fails, the remaining-images loop
spawns exactly the builds up to and including the failing one and errors. -/
theorem build_rest_fail (env : ImageEnv) :
    ∀ (pre : List BuildImage) (fb : BuildImage) (post : List BuildImage) (start : Nat),
      (∀ i, i < pre.length → step_ok env (start + i) = true) →
      spawn_ok env (start + pre.length) = true →
      step_ok env (start + pre.length) = false →
      (build_rest env start (pre ++ fb :: post)).1 = (pre ++ [fb]).map BuildImage.tag ∧
      exceptOk (build_rest env start (pre ++ fb :: post)).2 = false := by
  intro pre
  induction pre with
  | nil =>
    intro fb post start _ hs hf
    simp only [List.length_nil, Nat.add_zero] at hs hf
    obtain ⟨h1, hrest⟩ := step_fail_parts env start hs hf
    cases hrest with
    | inl hv =>
      obtain ⟨e, hv⟩ := hv
      simp [build_rest, h1, hv, exceptOk]
    | inr hv =>
      obtain ⟨hv, hh⟩ := hv
      obtain ⟨e, hh⟩ := hh fb.tag
      simp [build_rest, h1, hv, hh, exceptOk]
  | cons b pre ih =>
    intro fb post start hpre hs hf
    obtain ⟨h1, h2, h3⟩ := step_ok_parts env start (by
      have := hpre 0 (by simp)
      simpa using this)
    have hlen : start + (b :: pre).length = start + 1 + pre.length := by
      simp; omega
    rw [hlen] at hs hf
    have hrec := ih fb post (start + 1) (fun i hi => by
      have hh := hpre (i + 1) (by simpa using Nat.succ_lt_succ hi)
      have : start + (i + 1) = start + 1 + i := by omega
      rwa [this] at hh) hs hf
    simp only [List.cons_append, build_rest, h1, h2, h3 b.tag]
    exact ⟨by simp [hrec.1], hrec.2⟩

/-- When every image's Dockerfile is present, the precondition loop finds no
missing Dockerfile. -/
theorem check_dockerfiles_none (env : ImageEnv) :
    ∀ l : List BuildImage, (∀ b ∈ l, env.isFile b.dockerfile_path = true) →
      check_dockerfiles env l = none := by
  intro l hl
  induction l with
  | nil => rfl
  | cons b rest ih =>
    simp only [check_dockerfiles, hl b (List.mem_cons_self b rest), if_true]
    exact ih (fun x hx => hl x (List.mem_cons_of_mem b hx))

/-- When some image's Dockerfile is missing, the precondition loop returns a
missing image (the first one, which is in the list and is missing). -/
theorem check_dockerfiles_some (env : ImageEnv) :
    ∀ l : List BuildImage, (∃ b ∈ l, env.isFile b.dockerfile_path = false) →
      ∃ b, check_dockerfiles env l = some b ∧ b ∈ l ∧
        env.isFile b.dockerfile_path = false := by
  intro l hl
  induction l with
  | nil => simp at hl
  | cons c rest ih =>
    by_cases hc : env.isFile c.dockerfile_path = true
    · have hrest : ∃ b ∈ rest, env.isFile b.dockerfile_path = false := by
        obtain ⟨b, hb, hbf⟩ := hl
        cases List.mem_cons.mp hb with
        | inl h => rw [h] at hbf; rw [hbf] at hc; exact absurd hc (by simp)
        | inr h => exact ⟨b, h, hbf⟩
      obtain ⟨b, hcb, hbm, hbf⟩ := ih hrest
      exact ⟨b, by simp [check_dockerfiles, hc, hcb], List.mem_cons_of_mem c hbm, hbf⟩
    · refine ⟨c, ?_, List.mem_cons_self c rest, by simpa using hc⟩
      simp only [check_dockerfiles]
      rw [if_neg (by simpa using hc)]

/-- A fully successful invocation 0 makes the first image's build succeed. -/
theorem build_first_ok (env : ImageEnv) (b : BuildImage) (h : step_ok env 0 = true) :
    build_first env b = Except.ok () := by
  obtain ⟨h1, h2, h3⟩ := step_ok_parts env 0 h
  simp [build_first, h1, h2, h3 b.tag]

/-- An invocation 0 that starts but does not fully succeed makes the first
image's build fail. -/
theorem build_first_fail (env : ImageEnv) (b : BuildImage)
    (hs : spawn_ok env 0 = true) (h : step_ok env 0 = false) :
    ∃ e, build_first env b = Except.error e := by
  obtain ⟨h1, hrest⟩ := step_fail_parts env 0 hs h
  cases hrest with
  | inl hv =>
    obtain ⟨e, hv⟩ := hv
    exact ⟨e, by simp [build_first, h1, hv]⟩
  | inr hv =>
    obtain ⟨hv, hh⟩ := hv
    obtain ⟨e, hh⟩ := hh b.tag
    exact ⟨e, by simp [build_first, h1, hv, hh]⟩

/-- Modelled from the spec: the Pipeline Coordinator (spec section 4.6) that
composes the stages — source fetch, then `build_images`, then
`rollout_restart` — is not present under `src/`: `build_images`
(src/project/image.rs) and `rollout_restart` (src/kube.rs) have no caller
there.  Following the spec, "each stage must fully succeed to advance" and
"any stage failure transitions directly to `Failed`, skipping all later
stages (... a failed build never restarts workloads)".  The second component
is the list of resources for which a restart was attempted. -/
def pipeline_run (images : List BuildImage) (dest : String) (env : ImageEnv)
    (ns : String) (resources : List String) (kenv : KubeEnv) :
    BuildImagesTrace × List String :=
  let t := build_images images dest env
  match t.result with
  | BResult.ok => (t, (rollout_restart ns resources kenv).1)
  | _ => (t, [])

/-- C3: with all Dockerfiles present, when the builds before position
`pre.length + 1` (1-indexed position k = `pre.length + 1`) succeed and the
build at that position starts but fails, `build_images` spawns exactly the
docker builds for positions 1..k in declaration order (so the builder is
invoked exactly k times and no image after position k is ever attempted),
returns an error, and the restart stage of the pipeline run attempts zero
resources. -/
theorem build_failure_stops_sequence_and_skips_restart
    (pre : List BuildImage) (fb : BuildImage) (post : List BuildImage)
    (dest : String) (env : ImageEnv) (ns : String) (resources : List String)
    (kenv : KubeEnv)
    (hfiles : ∀ b ∈ pre ++ fb :: post, env.isFile b.dockerfile_path = true)
    (hok : ∀ i, i < pre.length → step_ok env i = true)
    (hspawn : spawn_ok env pre.length = true)
    (hfail : step_ok env pre.length = false) :
    (build_images (pre ++ fb :: post) dest env).spawned =
      (pre ++ [fb]).map BuildImage.tag ∧
    (build_images (pre ++ fb :: post) dest env).spawned.length = pre.length + 1 ∧
    (∃ m, (build_images (pre ++ fb :: post) dest env).result = BResult.err m) ∧
    (pipeline_run (pre ++ fb :: post) dest env ns resources kenv).2 = [] := by
  have hc := check_dockerfiles_none env (pre ++ fb :: post) hfiles
  have hmain : (build_images (pre ++ fb :: post) dest env).spawned =
      (pre ++ [fb]).map BuildImage.tag ∧
      ∃ m, (build_images (pre ++ fb :: post) dest env).result = BResult.err m := by
    cases pre with
    | nil =>
      obtain ⟨e, hf⟩ := build_first_fail env fb hspawn hfail
      simp only [List.nil_append] at hc ⊢
      simp [build_images, hc, hf]
    | cons p pre =>
      have h0 := build_first_ok env p (hok 0 (by simp))
      have hrec := build_rest_fail env pre fb post 1
        (fun i hi => by
          have hh := hok (i + 1) (by simpa using Nat.succ_lt_succ hi)
          have : i + 1 = 1 + i := by omega
          rwa [this] at hh)
        (by
          have : (p :: pre).length = 1 + pre.length := by simp; omega
          rwa [this] at hspawn)
        (by
          have : (p :: pre).length = 1 + pre.length := by simp; omega
          rwa [this] at hfail)
      obtain ⟨htags, herr⟩ := hrec
      cases ht : (build_rest env 1 (pre ++ fb :: post)).2 with
      | ok a => rw [ht] at herr; simp [exceptOk] at herr
      | error e =>
        simp only [List.cons_append] at hc ⊢
        refine ⟨?_, e, ?_⟩ <;> simp [build_images, hc, h0, ht, htags]
  refine ⟨hmain.1, ?_, hmain.2, ?_⟩
  · rw [hmain.1]; simp
  · obtain ⟨m, hm⟩ := hmain.2
    simp [pipeline_run, hm]

/-- Step-environment of a docker invocation that starts and completes
successfully (exit code 0). -/
def stepEnvOk : BuildStepEnv :=
  ⟨Except.ok (), Except.ok none, Except.ok ⟨⟨true, some 0⟩, "", ""⟩⟩

/-- Step-environment of a docker invocation that starts but whose build fails
with exit code 1. -/
def stepEnvFail : BuildStepEnv :=
  ⟨Except.ok (), Except.ok none, Except.ok ⟨⟨false, some 1⟩, "", "compile error"⟩⟩

/-- First configured image of the two-image example project. -/
def webImage : BuildImage :=
  ⟨"registry.example.com/api/web:latest", "/tmp/api/web/Dockerfile", "/tmp/api/web"⟩

/-- Second configured image of the two-image example project. -/
def workerImage : BuildImage :=
  ⟨"registry.example.com/api/worker:latest", "/tmp/api/worker/Dockerfile", "/tmp/api/worker"⟩

/-- Environment in which every Dockerfile exists, invocation 0 succeeds and
invocation 1 starts but fails. -/
def imageEnvSecondFails : ImageEnv :=
  ⟨fun _ => true, fun i => if i = 0 then stepEnvOk else stepEnvFail, true⟩

/-- C3 witness: the theorem applied to a concrete two-image list whose second
build fails (k = 2), discharging every hypothesis there. -/
theorem build_failure_stops_sequence_and_skips_restart_witness :
    (build_images ([webImage] ++ workerImage :: []) "/tmp/api" imageEnvSecondFails).spawned =
      ([webImage] ++ [workerImage]).map BuildImage.tag ∧
    (build_images ([webImage] ++ workerImage :: []) "/tmp/api"
      imageEnvSecondFails).spawned.length = [webImage].length + 1 ∧
    (∃ m, (build_images ([webImage] ++ workerImage :: []) "/tmp/api"
      imageEnvSecondFails).result = BResult.err m) ∧
    (pipeline_run ([webImage] ++ workerImage :: []) "/tmp/api" imageEnvSecondFails
      "prod" ["deployment/web", "deployment/worker"] kubeEnvFirstFails).2 = [] :=
  build_failure_stops_sequence_and_skips_restart [webImage] workerImage [] "/tmp/api"
    imageEnvSecondFails "prod" ["deployment/web", "deployment/worker"] kubeEnvFirstFails
    (by decide) (by decide) (by decide) (by decide)

/-- C6: `build_images` checks every image's Dockerfile before starting any
build: when some image's Dockerfile is not a regular file, no docker build is
spawned for any image (not even those whose Dockerfiles exist) and the function
returns the `Dockerfile ... not found` error naming a missing image. -/
theorem build_images_fail_fast_on_missing_dockerfile
    (images : List BuildImage) (dest : String) (env : ImageEnv)
    (hmiss : ∃ b ∈ images, env.isFile b.dockerfile_path = false) :
    (build_images images dest env).spawned = [] ∧
    ∃ b ∈ images, env.isFile b.dockerfile_path = false ∧
      (build_images images dest env).result =
        BResult.err ("Dockerfile for " ++ b.tag ++ " not found at "
          ++ b.dockerfile_path) := by
  obtain ⟨b, hcb, hbm, hbf⟩ := check_dockerfiles_some env images hmiss
  exact ⟨by simp [build_images, hcb], b, hbm, hbf, by simp [build_images, hcb]⟩

/-- Environment in which the web image's Dockerfile is missing but the worker
image's Dockerfile exists, and every docker invocation would succeed. -/
def imageEnvWebDockerfileMissing : ImageEnv :=
  ⟨fun p => !(p == "/tmp/api/web/Dockerfile"), fun _ => stepEnvOk, true⟩

/-- C6 witness: the theorem applied to the concrete two-image project whose
first Dockerfile is missing, discharging its hypothesis there. -/
theorem build_images_fail_fast_on_missing_dockerfile_witness :
    (build_images [webImage, workerImage] "/tmp/api"
      imageEnvWebDockerfileMissing).spawned = [] ∧
    ∃ b ∈ [webImage, workerImage],
      imageEnvWebDockerfileMissing.isFile b.dockerfile_path = false ∧
      (build_images [webImage, workerImage] "/tmp/api"
        imageEnvWebDockerfileMissing).result =
        BResult.err ("Dockerfile for " ++ b.tag ++ " not found at "
          ++ b.dockerfile_path) :=
  build_images_fail_fast_on_missing_dockerfile [webImage, workerImage] "/tmp/api"
    imageEnvWebDockerfileMissing (by decide)

/-- Environment in which no path is a regular file: every Dockerfile is
missing. -/
def imageEnvNoDockerfile : ImageEnv :=
  ⟨fun _ => false, fun _ => stepEnvOk, true⟩

/-- C4 counterexample: when the sequence is given up at the precondition (a
missing Dockerfile), `build_images` returns its error without ever attempting
workspace cleanup — contradicting "whether it completes all images
successfully or is given up partway (precondition failure or a failed image
build), workspace cleanup ... is attempted exactly once". -/
theorem cleanup_skipped_when_sequence_given_up :
    (build_images [webImage] "/tmp/api" imageEnvNoDockerfile).cleanupAttempted = false ∧
    (build_images [webImage] "/tmp/api" imageEnvNoDockerfile).result =
      BResult.err ("Dockerfile for registry.example.com/api/web:latest not found at "
        ++ "/tmp/api/web/Dockerfile") ∧
    (build_images ([webImage] ++ workerImage :: []) "/tmp/api"
      imageEnvSecondFails).cleanupAttempted = false :=
  ⟨rfl, rfl, by decide⟩

/-- `spawn_build` never reads the cleanup flag of its environment. -/
theorem spawn_build_ignores_cleanup (f : String → Bool) (s : Nat → BuildStepEnv)
    (b b' : Bool) (i : Nat) : spawn_build ⟨f, s, b⟩ i = spawn_build ⟨f, s, b'⟩ i := rfl

/-- `verify_build_started` never reads the cleanup flag of its environment. -/
theorem verify_build_started_ignores_cleanup (f : String → Bool)
    (s : Nat → BuildStepEnv) (b b' : Bool) (i : Nat) :
    verify_build_started ⟨f, s, b⟩ i = verify_build_started ⟨f, s, b'⟩ i := rfl

/-- `handle_build_completion` never reads the cleanup flag of its
environment. -/
theorem handle_build_completion_ignores_cleanup (f : String → Bool)
    (s : Nat → BuildStepEnv) (b b' : Bool) (i : Nat) (t : String) :
    handle_build_completion ⟨f, s, b⟩ i t = handle_build_completion ⟨f, s, b'⟩ i t := rfl

/-- The Dockerfile precondition loop never reads the cleanup flag. -/
theorem check_dockerfiles_ignores_cleanup (f : String → Bool)
    (s : Nat → BuildStepEnv) (b b' : Bool) :
    ∀ l, check_dockerfiles ⟨f, s, b⟩ l = check_dockerfiles ⟨f, s, b'⟩ l := by
  intro l
  induction l with
  | nil => rfl
  | cons c rest ih =>
    simp only [check_dockerfiles]
    rw [ih]

/-- The remaining-images loop never reads the cleanup flag. -/
theorem build_rest_ignores_cleanup (f : String → Bool) (s : Nat → BuildStepEnv)
    (b b' : Bool) : ∀ (l : List BuildImage) (i : Nat),
      build_rest ⟨f, s, b⟩ i l = build_rest ⟨f, s, b'⟩ i l := by
  intro l
  induction l with
  | nil => intro i; rfl
  | cons c rest ih =>
    intro i
    simp only [build_rest]
    rw [spawn_build_ignores_cleanup f s b b' i,
      verify_build_started_ignores_cleanup f s b b' i,
      handle_build_completion_ignores_cleanup f s b b' i c.tag, ih (i + 1)]

/-- The whole of `build_images` is unchanged when only the outcome of the
`remove_dir_all` cleanup differs. -/
theorem build_images_ignores_cleanup (images : List BuildImage) (dest : String)
    (f : String → Bool) (s : Nat → BuildStepEnv) (b b' : Bool) :
    build_images images dest ⟨f, s, b⟩ = build_images images dest ⟨f, s, b'⟩ := by
  unfold build_images
  rw [check_dockerfiles_ignores_cleanup f s b b']
  cases hc : check_dockerfiles ⟨f, s, b'⟩ images with
  | some x => rfl
  | none =>
    cases images with
    | nil => rfl
    | cons first rest =>
      have h1 : build_first ⟨f, s, b⟩ first = build_first ⟨f, s, b'⟩ first := rfl
      dsimp only
      rw [h1, build_rest_ignores_cleanup f s b b' rest 1]

/-- C4 amended: workspace cleanup is attempted exactly when (and only when)
the full image sequence succeeds — `cleanupAttempted` holds iff the result is
`Ok` — so a sequence given up at the precondition or at a failed image build
performs no cleanup; and the cleanup's own outcome never influences the
function (in particular a cleanup failure never converts an otherwise
successful build into a failure): the whole trace is unchanged when only the
cleanup outcome differs. -/
theorem build_images_cleanup_iff_success (images : List BuildImage) (dest : String)
    (env : ImageEnv) (f : String → Bool) (s : Nat → BuildStepEnv) (b b' : Bool) :
    ((build_images images dest env).cleanupAttempted = true ↔
      (build_images images dest env).result = BResult.ok) ∧
    build_images images dest ⟨f, s, b⟩ = build_images images dest ⟨f, s, b'⟩ := by
  refine ⟨?_, build_images_ignores_cleanup images dest f s b b'⟩
  cases hc : check_dockerfiles env images with
  | some x => simp [build_images, hc]
  | none =>
    cases images with
    | nil => simp [build_images, check_dockerfiles]
    | cons first rest =>
      cases hf : build_first env first with
      | error e => simp [build_images, hc, hf]
      | ok a =>
        cases ht : (build_rest env 1 rest).2 with
        | error e => simp [build_images, hc, hf, ht]
        | ok a2 => simp [build_images, hc, hf, ht]

/-- Environment in which every Dockerfile exists, every docker invocation
succeeds, and the final `remove_dir_all` cleanup fails. -/
def imageEnvCleanupFails : ImageEnv :=
  ⟨fun _ => true, fun _ => stepEnvOk, false⟩

/-- C4 witness: the amended theorem applied at a concrete successful one-image
build whose cleanup fails. -/
theorem build_images_cleanup_iff_success_witness :
    ((build_images [webImage] "/tmp/api" imageEnvCleanupFails).cleanupAttempted = true ↔
      (build_images [webImage] "/tmp/api" imageEnvCleanupFails).result = BResult.ok) ∧
    build_images [webImage] "/tmp/api" ⟨fun _ => true, fun _ => stepEnvOk, false⟩ =
      build_images [webImage] "/tmp/api" ⟨fun _ => true, fun _ => stepEnvOk, true⟩ :=
  build_images_cleanup_iff_success [webImage] "/tmp/api" imageEnvCleanupFails
    (fun _ => true) (fun _ => stepEnvOk) false true

/-! ## project/mod.rs : ProjectConfig and validate -/

/-- Embeds `CodeConfig` from `src/project/mod.rs` (`public` renamed to
`isPublic`). -/
structure CodeConfig where
  url : String
  branch : String
  isPublic : Bool
deriving Repr, DecidableEq

/-- Embeds `ImageConfig` from `src/project/mod.rs`. -/
structure ImageConfig where
  repository : String
  location : String
  tag : String
deriving Repr, DecidableEq

/-- Embeds `DeploymentConfig` from `src/project/mod.rs` (`namespace` renamed
to `nspace`, a Lean keyword). -/
structure DeploymentConfig where
  nspace : String
  resources : List String
deriving Repr, DecidableEq

/-- Embeds `ProjectConfig` from `src/project/mod.rs`. -/
structure ProjectConfig where
  name : String
  slug : String
  code : CodeConfig
  image : List ImageConfig
  deployments : DeploymentConfig
deriving Repr, DecidableEq

/-- Oracle for the `url` crate: `Url::parse` either fails (`none`) or yields a
URL whose scheme is the returned string. -/
structure UrlEnv where
  parseScheme : String → Option String

/-- Rust `str::trim().is_empty()`: the string has no non-whitespace character
(modelled on the character list, which computes by reduction). -/
def trim_is_empty (s : String) : Bool :=
  s.toList.all Char.isWhitespace

/-- Rust `Path::is_absolute` under the Unix model used by the service: the
path starts with `/`. -/
def path_is_absolute (s : String) : Bool :=
  match s.toList with
  | [] => false
  | c :: _ => c == '/'

/-- Splits a character list on `/`, mirroring how `Path::components`
separates a relative Unix path. -/
def splitOnSlash : List Char → List (List Char)
  | [] => [[]]
  | c :: rest =>
    if c == '/' then [] :: splitOnSlash rest
    else
      match splitOnSlash rest with
      | [] => [[c]]
      | g :: gs => (c :: g) :: gs

/-- Rust `components().any(|c| matches!(c, Component::ParentDir))`: some
`/`-separated component of the path is `..`. -/
def path_has_parent (s : String) : Bool :=
  (splitOnSlash s.toList).contains ['.', '.']

/-- The per-image `for` loop of `ProjectConfig::validate`: checks, in order,
non-empty repository, non-empty location, relative location (Unix model: an
absolute path starts with `/`), no parent-directory component (a `..` among
the `/`-separated components) and non-empty tag, stopping at the first
violation. -/
def validate_images : List ImageConfig → Except String Unit
  | [] => Except.ok ()
  | im :: rest =>
    if trim_is_empty im.repository then
      Except.error "project.image.repository must not be empty!"
    else if trim_is_empty im.location then
      Except.error "project.image.location must not be empty!"
    else if path_is_absolute im.location then
      Except.error "project.image.location must be a relative path!"
    else if path_has_parent im.location then
      Except.error "project.image.location must not contain parent paths!"
    else if trim_is_empty im.tag then
      Except.error "project.image.tag must not be empty!"
    else validate_images rest

/-- Embeds `ProjectConfig::validate` from `src/project/mod.rs`: the checks run
in source order and the first violation halts validation with its message; in
particular an empty `image` list is rejected with
`project.image must have at least one entry!`. -/
def ProjectConfig.validate (cfg : ProjectConfig) (uenv : UrlEnv) :
    Except String Unit :=
  if trim_is_empty cfg.name then Except.error "project.name must not be empty!"
  else if trim_is_empty cfg.slug then Except.error "project.slug must not be empty!"
  else
    match uenv.parseScheme cfg.code.url with
    | none => Except.error "`project.code.url` must be a valid URL!"
    | some scheme =>
      if scheme ≠ "https" then Except.error "`project.code.url` must use HTTPS!"
      else if trim_is_empty cfg.code.branch then
        Except.error "project.code.branch must not be empty!"
      else if cfg.image.isEmpty then
        Except.error "project.image must have at least one entry!"
      else
        match validate_images cfg.image with
        | Except.error e => Except.error e
        | Except.ok _ =>
          if trim_is_empty cfg.deployments.nspace then
            Except.error "project.deployments.namespace must not be empty!"
          else if cfg.deployments.resources.isEmpty then
            Except.error "project.deployments.resources must have at least one item!"
          else Except.ok ()

/-- C10: called on an empty image list, `build_images` panics at
`drain(0..1)` (out-of-bounds range on an empty vector) and never returns the
`project.image must have at least one entry!` error its `ok_or_else` suggests
(it returns no `Err` at all); on any non-empty list the drain panic cannot
occur; and the load-time validation guarantees the precondition: a
`ProjectConfig` that validates has a non-empty image list. -/
theorem build_images_empty_list_panics :
    (∀ (dest : String) (env : ImageEnv),
      (build_images [] dest env).result =
        BResult.panicked "end drain index (is 1) should be <= len (is 0)" ∧
      ∀ m, (build_images [] dest env).result ≠ BResult.err m) ∧
    (∀ (images : List BuildImage) (dest : String) (env : ImageEnv), images ≠ [] →
      ∀ m, (build_images images dest env).result ≠ BResult.panicked m) ∧
    (∀ (cfg : ProjectConfig) (uenv : UrlEnv),
      ProjectConfig.validate cfg uenv = Except.ok () → cfg.image ≠ []) := by
  refine ⟨?_, ?_, ?_⟩
  · intro dest env
    constructor
    · simp [build_images, check_dockerfiles]
    · intro m
      simp [build_images, check_dockerfiles]
  · intro images dest env hne m
    cases hc : check_dockerfiles env images with
    | some x => simp [build_images, hc]
    | none =>
      cases images with
      | nil => exact absurd rfl hne
      | cons first rest =>
        cases hf : build_first env first with
        | error e => simp [build_images, hc, hf]
        | ok a =>
          cases ht : (build_rest env 1 rest).2 with
          | error e => simp [build_images, hc, hf, ht]
          | ok a2 => simp [build_images, hc, hf, ht]
  · intro cfg uenv h himg
    unfold ProjectConfig.validate at h
    rw [himg] at h
    simp only [List.isEmpty_nil, if_true] at h
    split at h
    · simp at h
    · split at h
      · simp at h
      · split at h
        · simp at h
        · split at h
          · simp at h
          · split at h
            · simp at h
            · simp at h

/-- A validating configuration of the example project with two images. -/
def apiProjectConfig : ProjectConfig :=
  ⟨"API", "api", ⟨"https://example.com/api.git", "main", true⟩,
    [⟨"api/web", "web/Dockerfile", "latest"⟩, ⟨"api/worker", "worker/Dockerfile", "latest"⟩],
    ⟨"prod", ["deployment/web", "deployment/worker"]⟩⟩

/-- URL oracle that parses the example HTTPS URL. -/
def urlEnvHttps : UrlEnv :=
  ⟨fun u => if u == "https://example.com/api.git" then some "https" else none⟩

/-- C10 witness: the theorem applied at concrete inputs — the empty list
panics, the concrete two-image list does not, and the validating example
configuration has a non-empty image list. -/
theorem build_images_empty_list_panics_witness :
    ((build_images [] "/tmp/api" imageEnvSecondFails).result =
      BResult.panicked "end drain index (is 1) should be <= len (is 0)" ∧
      ∀ m, (build_images [] "/tmp/api" imageEnvSecondFails).result ≠ BResult.err m) ∧
    (∀ m, (build_images [webImage, workerImage] "/tmp/api"
      imageEnvSecondFails).result ≠ BResult.panicked m) ∧
    apiProjectConfig.image ≠ [] :=
  ⟨build_images_empty_list_panics.1 "/tmp/api" imageEnvSecondFails,
   build_images_empty_list_panics.2.1 [webImage, workerImage] "/tmp/api"
     imageEnvSecondFails (by decide),
   build_images_empty_list_panics.2.2 apiProjectConfig urlEnvHttps (by rfl)⟩

/-! ## api.rs -/

/-- HTTP status codes produced by the trigger handler in `src/api.rs`. -/
inductive HttpStatus
  | ok200
  | notFound404
  | conflict409
  | serverError500
deriving Repr, DecidableEq

/-- Embeds the server state built in `start` (src/api.rs): the slugs keyed in
`config.projects`, and the `build_locks` map — `none` when a slug has no
semaphore entry, `some held` when it has one whose single permit is currently
taken (`held = true`) or available (`held = false`). -/
structure AppState where
  projects : List String
  build_locks : String → Option Bool

/-- Observable outcome of one `handler` call (src/api.rs): the response
status, whether the `build_locks` map was consulted, and the lock map after
the call (acquisition takes the permit). -/
structure HandlerResult where
  status : HttpStatus
  lockConsulted : Bool
  locks : String → Option Bool

/-- Embeds `handler` from `src/api.rs`: look the slug up in
`config.projects`; absent → 404 without touching `build_locks`; present but
no semaphore entry → 500; present with the permit taken
(`try_acquire_owned` fails — non-blocking, it never waits) → 409; present
with the permit available → the permit is acquired, the build is dispatched
in the background, and the response is 200. -/
def handler (slug : String) (st : AppState) : HandlerResult :=
  if slug ∈ st.projects then
    match st.build_locks slug with
    | none => ⟨HttpStatus.serverError500, true, st.build_locks⟩
    | some held =>
      if held then ⟨HttpStatus.conflict409, true, st.build_locks⟩
      else ⟨HttpStatus.ok200, true,
        fun s => if s = slug then some true else st.build_locks s⟩
  else ⟨HttpStatus.notFound404, false, st.build_locks⟩

/-- Embeds the release of a build permit: when the spawned build task drops
its permit, the slug's semaphore becomes available again; the key set of the
map never changes. -/
def release_lock (locks : String → Option Bool) (slug : String) :
    String → Option Bool :=
  fun s => if s = slug then (locks s).map (fun _ => false) else locks s

/-- Embeds the `build_locks` map constructed in `start` (src/api.rs): one
fresh semaphore with one available permit per configured project slug, and
nothing else. -/
def start_locks (projects : List String) : String → Option Bool :=
  fun slug => if slug ∈ projects then some false else none

/-- The lock map has exactly one entry per configured slug. -/
def locks_cover (projects : List String) (locks : String → Option Bool) : Prop :=
  ∀ s, s ∈ projects ↔ (locks s).isSome = true

/-- C5: the trigger handler returns 200 iff the slug is configured and its
permit was available (and then the permit is taken), 404 iff the slug is not
configured (and then the lock map is neither consulted nor changed), and 409
iff the slug is configured but its permit is already held (a build is in
flight); the acquisition attempt is the non-blocking `try_acquire`, modelled
as an immediate function of the current lock state. -/
theorem handler_status_spec (slug : String) (st : AppState) :
    ((handler slug st).status = HttpStatus.ok200 ↔
      slug ∈ st.projects ∧ st.build_locks slug = some false) ∧
    ((handler slug st).status = HttpStatus.ok200 →
      (handler slug st).locks slug = some true) ∧
    ((handler slug st).status = HttpStatus.notFound404 ↔ slug ∉ st.projects) ∧
    (slug ∉ st.projects →
      (handler slug st).lockConsulted = false ∧ (handler slug st).locks = st.build_locks) ∧
    ((handler slug st).status = HttpStatus.conflict409 ↔
      slug ∈ st.projects ∧ st.build_locks slug = some true) := by
  by_cases hm : slug ∈ st.projects
  · cases hl : st.build_locks slug with
    | none => simp [handler, hm, hl]
    | some held =>
      cases held with
      | true => simp [handler, hm, hl]
      | false => simp [handler, hm, hl]
  · simp [handler, hm]

/-- Concrete startup state with the single configured project `api`. -/
def apiState : AppState :=
  ⟨["api"], start_locks ["api"]⟩

/-- C5 witness: the theorem applied at the concrete startup state and slug
`api`, discharging (vacuously or directly) each implication there. -/
theorem handler_status_spec_witness :
    ((handler "api" apiState).status = HttpStatus.ok200 ↔
      "api" ∈ apiState.projects ∧ apiState.build_locks "api" = some false) ∧
    ((handler "api" apiState).status = HttpStatus.ok200 →
      (handler "api" apiState).locks "api" = some true) ∧
    ((handler "api" apiState).status = HttpStatus.notFound404 ↔
      "api" ∉ apiState.projects) ∧
    ("api" ∉ apiState.projects →
      (handler "api" apiState).lockConsulted = false ∧
      (handler "api" apiState).locks = apiState.build_locks) ∧
    ((handler "api" apiState).status = HttpStatus.conflict409 ↔
      "api" ∈ apiState.projects ∧ apiState.build_locks "api" = some true) :=
  handler_status_spec "api" apiState

/-- C9: at startup the lock map covers exactly the configured slugs; the
cover is an invariant of both the handler and a permit release; and under it
the handler never answers 500 (the `Build lock missing` branch is
unreachable). -/
theorem build_locks_cover_invariant :
    (∀ projects : List String, locks_cover projects (start_locks projects)) ∧
    (∀ (slug : String) (st : AppState), locks_cover st.projects st.build_locks →
      (handler slug st).status ≠ HttpStatus.serverError500 ∧
      locks_cover st.projects (handler slug st).locks) ∧
    (∀ (slug : String) (projects : List String) (locks : String → Option Bool),
      locks_cover projects locks → locks_cover projects (release_lock locks slug)) := by
  refine ⟨?_, ?_, ?_⟩
  · intro projects s
    by_cases hs : s ∈ projects <;> simp [start_locks, hs]
  · intro slug st hcov
    by_cases hm : slug ∈ st.projects
    · cases hl : st.build_locks slug with
      | none =>
        have := (hcov slug).mp hm
        rw [hl] at this
        simp at this
      | some held =>
        cases held with
        | true =>
          have hlocks : (handler slug st).locks = st.build_locks := by
            simp [handler, hm, hl]
          exact ⟨by simp [handler, hm, hl], by rw [hlocks]; exact hcov⟩
        | false =>
          have hlocks : (handler slug st).locks =
              fun s => if s = slug then some true else st.build_locks s := by
            simp [handler, hm, hl]
          refine ⟨by simp [handler, hm, hl], ?_⟩
          intro s
          rw [hlocks]
          by_cases hse : s = slug
          · subst hse; simp [hm]
          · simp only [if_neg hse]; exact hcov s
    · exact ⟨by simp [handler, hm], by simpa [handler, hm] using hcov⟩
  · intro slug projects locks hcov s
    by_cases hse : s = slug
    · subst hse
      cases hl : locks s with
      | none => simpa [release_lock, hl] using hcov s
      | some held => simpa [release_lock, hl] using hcov s
    · simpa [release_lock, hse] using hcov s

/-- C9 witness: the invariant theorem applied at the concrete startup state,
discharging the cover hypotheses there. -/
theorem build_locks_cover_invariant_witness :
    locks_cover ["api"] (start_locks ["api"]) ∧
    (handler "api" apiState).status ≠ HttpStatus.serverError500 ∧
    locks_cover apiState.projects (handler "api" apiState).locks ∧
    locks_cover ["api"] (release_lock (start_locks ["api"]) "api") := by
  have h1 := build_locks_cover_invariant.1 ["api"]
  have h2 := build_locks_cover_invariant.2.1 "api" apiState h1
  have h3 := build_locks_cover_invariant.2.2 "api" ["api"] (start_locks ["api"]) h1
  exact ⟨h1, h2.1, h2.2, h3⟩

/-! ## buildx.rs -/

/-- Environment oracle for `src/buildx.rs`.  The docker CLI is modelled at its
contract: `docker buildx ls` lists the existing builders when the daemon is
reachable, `docker buildx use NAME` succeeds when the daemon is reachable and
the named builder exists, creation and bootstrap succeed per their own flags
when the daemon is reachable.  Kubeconfig provisioning depends only on the
process environment, which does not change between two invocations in the same
process. -/
structure BuildxEnv where
  /-- The service-account token file exists (running inside a cluster). -/
  tokenPresent : Bool
  /-- `KUBERNETES_SERVICE_HOST` / `KUBERNETES_SERVICE_PORT` are set. -/
  envVarsSet : Bool
  /-- The token file can be read. -/
  tokenReadOk : Bool
  /-- The four `kubectl config` subcommands succeed. -/
  kubectlOk : Bool
  /-- The docker daemon is reachable (`buildx ls` / `buildx use` run). -/
  dockerOk : Bool
  /-- `docker buildx create` succeeds. -/
  createOk : Bool
  /-- `docker buildx inspect --bootstrap` succeeds. -/
  bootstrapOk : Bool
deriving Repr, DecidableEq

/-- Process-wide docker state the builder lifecycle manipulates: whether a
builder named `builder` exists, and which builder is currently selected. -/
structure BuildxState where
  builderExists : Bool
  selectedBuilder : Option String
deriving Repr, DecidableEq

/-- Observable outcome of one `initialize` call (src/buildx.rs): how many
`docker buildx create` invocations were made, the docker state afterwards, and
the function's `Result`. -/
structure InitTrace where
  createCalls : Nat
  state : BuildxState
  result : Except String Unit
deriving Repr

/-- Embeds `setup_kubeconfig` from `src/buildx.rs`: skips silently when no
service-account token is present; otherwise requires the in-cluster
environment variables, the token read, and the four `kubectl config`
subcommands. -/
def setup_kubeconfig (env : BuildxEnv) : Except String Unit :=
  if !env.tokenPresent then Except.ok ()
  else if !env.envVarsSet then Except.error "KUBERNETES_SERVICE_HOST not set"
  else if !env.tokenReadOk then Except.error "Failed to read service account token"
  else if !env.kubectlOk then Except.error "Failed to set cluster"
  else Except.ok ()

/-- Embeds `check_builder_exists` from `src/buildx.rs`: `docker buildx ls`
fails when the daemon is unreachable; otherwise its output contains the
well-known name `builder` exactly when that builder exists. -/
def check_builder_exists (env : BuildxEnv) (s : BuildxState) : Except String Bool :=
  if env.dockerOk then Except.ok s.builderExists
  else Except.error "Failed to list builders"

/-- Embeds `use_builder` from `src/buildx.rs`: `docker buildx use builder`
selects the existing builder; it fails when the daemon is unreachable or no
such builder exists. -/
def use_builder (env : BuildxEnv) (s : BuildxState) : Except String BuildxState :=
  if env.dockerOk && s.builderExists then
    Except.ok { s with selectedBuilder := some "builder" }
  else Except.error "Failed to use builder"

/-- Embeds `create_builder` from `src/buildx.rs`: creates the builder with
the kubernetes driver and, because of the `--use` flag, selects it. -/
def create_builder (env : BuildxEnv) (s : BuildxState) : Except String BuildxState :=
  if env.dockerOk && env.createOk then
    Except.ok { s with builderExists := true, selectedBuilder := some "builder" }
  else Except.error "Failed to create builder"

/-- Embeds `bootstrap_builder` from `src/buildx.rs`. -/
def bootstrap_builder (env : BuildxEnv) : Except String Unit :=
  if env.dockerOk && env.bootstrapOk then Except.ok ()
  else Except.error "Failed to bootstrap builder"

/-- Embeds `initialize` from `src/buildx.rs` (named `initializeBuilder`
here): set up the kubeconfig, check whether the builder already exists; if it
does, select the existing builder (no creation call); if not, create it (one
creation call) and bootstrap it. -/
def initializeBuilder (env : BuildxEnv) (s : BuildxState) : InitTrace :=
  match setup_kubeconfig env with
  | Except.error e => ⟨0, s, Except.error e⟩
  | Except.ok _ =>
    match check_builder_exists env s with
    | Except.error e => ⟨0, s, Except.error e⟩
    | Except.ok found =>
      if found then
        match use_builder env s with
        | Except.error e => ⟨0, s, Except.error e⟩
        | Except.ok s2 => ⟨0, s2, Except.ok ()⟩
      else
        match create_builder env s with
        | Except.error e => ⟨1, s, Except.error e⟩
        | Except.ok s2 =>
          match bootstrap_builder env with
          | Except.error e => ⟨1, s2, Except.error e⟩
          | Except.ok _ => ⟨1, s2, Except.ok ()⟩

/-- A successful `initialize` leaves the builder existing and selected, with
the kubeconfig step and the daemon both working. -/
theorem initializeBuilder_ok_state (env : BuildxEnv) (s : BuildxState)
    (h : (initializeBuilder env s).result = Except.ok ()) :
    (initializeBuilder env s).state = ⟨true, some "builder"⟩ ∧
    setup_kubeconfig env = Except.ok () ∧ env.dockerOk = true := by
  obtain ⟨be, sel⟩ := s
  unfold initializeBuilder at h ⊢
  cases hk : setup_kubeconfig env with
  | error e => rw [hk] at h; simp at h
  | ok u =>
    cases u
    rw [hk] at h
    dsimp only at h ⊢
    cases hd : env.dockerOk with
    | false =>
      rw [show check_builder_exists env ⟨be, sel⟩ = Except.error "Failed to list builders"
        from by simp [check_builder_exists, hd]] at h
      simp at h
    | true =>
      rw [show check_builder_exists env ⟨be, sel⟩ = Except.ok be
        from by simp [check_builder_exists, hd]] at h ⊢
      dsimp only at h ⊢
      cases hb : be with
      | true =>
        rw [hb] at h
        rw [show use_builder env ⟨true, sel⟩ = Except.ok ⟨true, some "builder"⟩
          from by simp [use_builder, hd]] at h ⊢
        simp
      | false =>
        rw [hb] at h
        simp only [Bool.false_eq_true, if_false] at h ⊢
        cases hc : env.createOk with
        | false =>
          rw [show create_builder env ⟨false, sel⟩ = Except.error "Failed to create builder"
            from by simp [create_builder, hd, hc]] at h
          simp at h
        | true =>
          rw [show create_builder env ⟨false, sel⟩ = Except.ok ⟨true, some "builder"⟩
            from by simp [create_builder, hd, hc]] at h ⊢
          dsimp only at h ⊢
          cases hboot : bootstrap_builder env with
          | error e => rw [hboot] at h; simp at h
          | ok u2 => simp

/-- C7: the builder lifecycle initialization is idempotent.  If one
`initialize` call succeeds, then a second call made in the resulting state
also succeeds, performs zero builder-creation calls (the existing builder is
found by the re-check and selected, not re-created), leaves the state
unchanged, and both calls converge on the same selected builder, named
`builder`. -/
theorem initializeBuilder_idempotent (env : BuildxEnv) (s : BuildxState)
    (h : (initializeBuilder env s).result = Except.ok ()) :
    (initializeBuilder env (initializeBuilder env s).state).result = Except.ok () ∧
    (initializeBuilder env (initializeBuilder env s).state).createCalls = 0 ∧
    (initializeBuilder env (initializeBuilder env s).state).state =
      (initializeBuilder env s).state ∧
    (initializeBuilder env s).state.selectedBuilder = some "builder" := by
  obtain ⟨hstate, hkube, hdocker⟩ := initializeBuilder_ok_state env s h
  rw [hstate]
  have hsecond : initializeBuilder env ⟨true, some "builder"⟩ =
      ⟨0, ⟨true, some "builder"⟩, Except.ok ()⟩ := by
    unfold initializeBuilder
    rw [hkube]
    dsimp only
    rw [show check_builder_exists env ⟨true, some "builder"⟩ = Except.ok true
      from by simp [check_builder_exists, hdocker]]
    rw [show use_builder env ⟨true, some "builder"⟩ = Except.ok ⟨true, some "builder"⟩
      from by simp [use_builder, hdocker]]
    simp
  rw [hsecond]
  exact ⟨rfl, rfl, rfl, rfl⟩

/-- Environment of a healthy first startup outside a cluster: no
service-account token (kubeconfig setup skipped), reachable daemon,
successful creation and bootstrap. -/
def buildxEnvFreshStartup : BuildxEnv :=
  ⟨false, false, false, false, true, true, true⟩

/-- C7 witness: the idempotence theorem applied at a fresh startup (no
builder exists yet), discharging its success hypothesis there. -/
theorem initializeBuilder_idempotent_witness :
    (initializeBuilder buildxEnvFreshStartup
      (initializeBuilder buildxEnvFreshStartup ⟨false, none⟩).state).result =
        Except.ok () ∧
    (initializeBuilder buildxEnvFreshStartup
      (initializeBuilder buildxEnvFreshStartup ⟨false, none⟩).state).createCalls = 0 ∧
    (initializeBuilder buildxEnvFreshStartup
      (initializeBuilder buildxEnvFreshStartup ⟨false, none⟩).state).state =
      (initializeBuilder buildxEnvFreshStartup ⟨false, none⟩).state ∧
    (initializeBuilder buildxEnvFreshStartup ⟨false, none⟩).state.selectedBuilder =
      some "builder" :=
  initializeBuilder_idempotent buildxEnvFreshStartup ⟨false, none⟩ (by rfl)
